import Mathlib

/-!
Verification of the stacking-context core of `dom-to-svg` (`src/stacking.ts`).

The definitions below are a shallow embedding of the TypeScript source.
DOM objects are represented by the projections the stacking code reads:
a node carries its computed style, its parent's computed style (when a
parent element exists), whether its `ownerDocument` has a `defaultView`,
and whether it is an element.  JavaScript numbers appearing here are
exact integers (z-index values) or exact decimal fractions (opacity), so
they are modelled with `Int` and exact numerator/denominator pairs.
Fallible code (functions that `throw`) returns `Except String`.

The helpers `isElement`, `isInFlow`, `isInline` and `isPositioned` are
imported by `stacking.ts` from `./common`, a file that is not part of the
sources; they are modelled from the spec (each such definition says so in
its doc comment).
-/

deriving instance DecidableEq for Except

namespace DomToSvg

/-- Computed style record: the style properties read by `stacking.ts`.
Every field holds the string returned by `getComputedStyle`. -/
structure ComputedStyle where
  position : String
  zIndex : String
  display : String
  opacity : String
  mixBlendMode : String
  transform : String
  filter : String
  perspective : String
  clipPath : String
  mask : String
  maskImage : String
  maskBorder : String
  isolation : String
  webkitOverflowScrolling : String
  contain : String
  willChange : String
  float : String
  displayOutside : String
deriving DecidableEq, Repr

/-- Projection of a DOM node: the data `stacking.ts` reads from it.
`hasDefaultView` is the truthiness of `node.ownerDocument?.defaultView`;
`parentStyle` is the computed style of `node.parentElement` when one
exists.  `isElement` is modelled from the spec (StyledNode `kind`,
section 3: only elements participate in stacking); `isRoot` is modelled
from the spec (section 4.2, used by `isInFlow`). -/
structure Node where
  hasDefaultView : Bool
  isElement : Bool
  isRoot : Bool
  style : ComputedStyle
  parentStyle : Option ComputedStyle
deriving DecidableEq, Repr

/-- JavaScript `parseInt(s, 10)`: skip leading whitespace, read an
optional sign and then the longest digit prefix; `none` models `NaN`.
The z-index strings reaching this function are small, so the exact `Int`
result coincides with the double-precision result. -/
def jsParseInt (s : String) : Option Int :=
  let cs := s.data.dropWhile Char.isWhitespace
  let signRest : Int × List Char :=
    match cs with
    | '-' :: r => (-1, r)
    | '+' :: r => (1, r)
    | _ => (1, cs)
  let ds := signRest.2.takeWhile Char.isDigit
  if ds.isEmpty then none
  else some (signRest.1 * Int.ofNat (ds.foldl (fun n c => n * 10 + (c.toNat - 48)) 0))

/-- JavaScript `parseFloat(s)` as an exact fraction `numerator / 10 ^ k`:
skip leading whitespace, read an optional sign, an integer part and an
optional fractional part; `none` models `NaN`.  Exponent notation is not
modelled: computed opacity values are plain decimal literals, for which
this exact-fraction model agrees with the double-precision value. -/
def jsParseFloatScaled (s : String) : Option (Int × Nat) :=
  let cs := s.data.dropWhile Char.isWhitespace
  let signRest : Int × List Char :=
    match cs with
    | '-' :: r => (-1, r)
    | '+' :: r => (1, r)
    | _ => (1, cs)
  let intPart := signRest.2.takeWhile Char.isDigit
  let afterInt := signRest.2.dropWhile Char.isDigit
  let fracPart : List Char :=
    match afterInt with
    | '.' :: r => r.takeWhile Char.isDigit
    | _ => []
  if intPart.isEmpty && fracPart.isEmpty then none
  else
    let iv := intPart.foldl (fun n c => n * 10 + (c.toNat - 48)) 0
    let fv := fracPart.foldl (fun n c => n * 10 + (c.toNat - 48)) 0
    some (signRest.1 * Int.ofNat (iv * 10 ^ fracPart.length + fv), 10 ^ fracPart.length)

/-- The test `parseFloat(styles.opacity) !== 1`: `NaN !== 1` is `true`,
and an exact fraction equals `1` exactly when numerator = denominator. -/
def opacityIsNotOne (opacity : String) : Bool :=
  match jsParseFloatScaled opacity with
  | some nd => nd.1 != Int.ofNat nd.2
  | none => true

/-- JavaScript `s.split(',')` over the character list (the core `String`
splitter is not kernel-reducible, so the split is done structurally). -/
def splitCommaChars : List Char → List Char → List (List Char)
  | [], acc => [acc.reverse]
  | c :: cs, acc =>
    if c == ',' then acc.reverse :: splitCommaChars cs []
    else splitCommaChars cs (c :: acc)

/-- JavaScript `String.prototype.trim` on a character list. -/
def trimChars (cs : List Char) : List Char :=
  ((cs.dropWhile Char.isWhitespace).reverse.dropWhile Char.isWhitespace).reverse

/-- The module-level set of property names whose presence in
`will-change` establishes a stacking context (`stacking.ts`, lines
16-31), in source order. -/
def stackingContextEstablishingProperties : List String :=
  [ "clipPath", "contain", "filter", "isolation", "mask", "maskBorder",
    "maskImage", "mixBlendMode", "opacity", "perspective", "position",
    "transform", "webkitOverflowScrolling", "zIndex" ]

/-- The final disjunct of `establishesStackingContext`:
`styles.willChange && styles.willChange.split(',').some(property =>
stackingContextEstablishingProperties.has(property.trim()))`.
The truthiness guard on `styles.willChange` is `!= ""`. -/
def willChangeTriggers (willChange : String) : Bool :=
  willChange != "" &&
    (splitCommaChars willChange.data []).any
      (fun property =>
        stackingContextEstablishingProperties.contains (String.mk (trimChars property)))

/-- The flex/grid parent clause: `parentStyles && (parentStyles.display
=== 'flex' || parentStyles.display === 'grid')`; `parentStyles` is null
when the node has no parent element. -/
def parentFlexOrGrid (parentStyle : Option ComputedStyle) : Bool :=
  match parentStyle with
  | some parentStyles => parentStyles.display == "flex" || parentStyles.display == "grid"
  | none => false

/-- The boolean expression returned by `establishesStackingContext`
(`stacking.ts`, lines 43-67), for an element with computed style `s` and
parent computed style `parentStyle`. -/
def establishesStackingContextStyle (s : ComputedStyle) (parentStyle : Option ComputedStyle) :
    Bool :=
  ((s.position == "absolute" || s.position == "relative") && s.zIndex != "auto") ||
  s.position == "fixed" ||
  s.position == "sticky" ||
  (parentFlexOrGrid parentStyle && s.zIndex != "auto") ||
  opacityIsNotOne s.opacity ||
  s.mixBlendMode != "normal" ||
  s.transform != "none" ||
  s.filter != "none" ||
  s.perspective != "none" ||
  s.clipPath != "none" ||
  s.mask != "none" ||
  s.maskImage != "none" ||
  s.maskBorder != "none" ||
  s.isolation == "isolate" ||
  s.webkitOverflowScrolling == "touch" ||
  s.contain == "layout" ||
  s.contain == "paint" ||
  s.contain == "strict" ||
  s.contain == "content" ||
  willChangeTriggers s.willChange

/-- `establishesStackingContext` (`stacking.ts`, lines 33-68): throws
when the owner document has no default view, returns `false` for
non-element nodes, and otherwise evaluates the style disjunction. -/
def establishesStackingContext (node : Node) : Except String Bool :=
  if !node.hasDefaultView then
    .error "Node's ownerDocument has no defaultView"
  else if !node.isElement then
    .ok false
  else
    .ok (establishesStackingContextStyle node.style node.parentStyle)

/-- The boolean value of `establishesStackingContext` on a node whose
owner document is known to have a default view (as in the calls made
from `determineStackingLayer`, where the view was already checked). -/
def establishesStackingContextB (node : Node) : Bool :=
  node.isElement && establishesStackingContextStyle node.style node.parentStyle

/-- Modelled from the spec: `isPositioned` is imported from `./common`,
which is not among the sources.  Spec section 4.2: "true if position is
relative, absolute, fixed, or sticky". -/
def isPositioned (s : ComputedStyle) : Bool :=
  s.position == "relative" || s.position == "absolute" ||
  s.position == "fixed" || s.position == "sticky"

/-- Modelled from the spec: `isInline` is imported from `./common`,
which is not among the sources.  Spec section 4.2: "true if
display-outside resolves to inline-level". -/
def isInline (s : ComputedStyle) : Bool :=
  s.displayOutside == "inline"

/-- Modelled from the spec: `isInFlow` is imported from `./common`,
which is not among the sources.  Spec section 4.2: "true if the element
participates in normal flow (not floated, not absolutely/fixed
positioned, not the root)". -/
def isInFlow (element : Node) (s : ComputedStyle) : Bool :=
  s.float == "none" && s.position != "absolute" && s.position != "fixed" && !element.isRoot

/-- The seven layer names of the `StackingLayers` interface
(`stacking.ts`, lines 70-91), in declaration order. -/
inductive StackingLayerName where
  | rootBackgroundAndBorders
  | childStackingContextsWithNegativeStackLevels
  | inFlowNonInlineNonPositionedDescendants
  | nonPositionedFloats
  | inFlowInlineLevelNonPositionedDescendants
  | childStackingContextsWithStackLevelZeroAndPositionedDescendantsWithStackLevelZero
  | childStackingContextsWithPositiveStackLevels
deriving DecidableEq, Repr

/-- `determineStackingLayer` (`stacking.ts`, lines 128-158).  The local
`zIndex` is `undefined` when the computed z-index is `"auto"` and
`parseInt(styles.zIndex, 10)` otherwise; an unparseable string gives
`NaN`, which fails the `< 0`, `=== 0` and `> 0` tests exactly as
`undefined` does, so both are `none` here. -/
def determineStackingLayer (element : Node) : Except String StackingLayerName :=
  if !element.hasDefaultView then
    .error "Element's ownerDocument has no defaultView"
  else
    let styles := element.style
    let zIndex : Option Int := if styles.zIndex != "auto" then jsParseInt styles.zIndex else none
    if (zIndex.any fun z => decide (z < 0)) && establishesStackingContextB element then
      .ok .childStackingContextsWithNegativeStackLevels
    else if isInFlow element styles && !isInline styles && !isPositioned styles then
      .ok .inFlowNonInlineNonPositionedDescendants
    else if !isPositioned styles && styles.float != "none" then
      .ok .nonPositionedFloats
    else if isInFlow element styles && isInline styles && !isPositioned styles then
      .ok .inFlowInlineLevelNonPositionedDescendants
    else if zIndex == some 0 && (isPositioned styles || establishesStackingContextB element) then
      .ok .childStackingContextsWithStackLevelZeroAndPositionedDescendantsWithStackLevelZero
    else if (zIndex.any fun z => decide (z > 0)) && establishesStackingContextB element then
      .ok .childStackingContextsWithPositiveStackLevels
    else
      .error "Did not find appropiate stacking layer"

/-- A child of a layer container, projected to what the z-index sort
reads: its `data-z-index` attribute (`none` when absent) and an abstract
`content` standing for the rest of the node. -/
structure ZChild where
  zIndex : Option String
  content : Nat
deriving DecidableEq, Repr

/-- The comparator's guard `!zIndexA`: the `data-z-index` attribute is
missing (`dataset.zIndex` is `undefined`) or is the empty string. -/
def hasMissingZIndex (c : ZChild) : Bool :=
  match c.zIndex with
  | none => true
  | some s => s == ""

/-- The numeric sort key of a child: `parseInt` of its `data-z-index`
attribute (`none` when the attribute is absent or unparseable). -/
def zKey (c : ZChild) : Option Int :=
  c.zIndex.bind jsParseInt

/-- The comparator value `parseInt(zIndexA, 10) - parseInt(zIndexB, 10)`
once both attributes passed the truthiness guard.  A `NaN` operand makes
the difference `NaN`, which the ECMAScript `SortCompare` operation
treats as `+0`, i.e. "equal". -/
def zCompareVal (a b : ZChild) : Int :=
  match zKey a, zKey b with
  | some x, some y => x - y
  | _, _ => 0

/-- The comparator passed to `sort` (`stacking.ts`, lines 161-168):
throws when either child lacks a (non-empty) `data-z-index` attribute,
otherwise returns the difference of the parsed values. -/
def compareZ (a b : ZChild) : Except String Int :=
  if hasMissingZIndex a || hasMissingZIndex b then
    .error "Expected node to have data-z-index attribute"
  else
    .ok (zCompareVal a b)

/-- Stable insertion of `x` (an element originally preceding every
element of the list) into an already processed list: `x` is placed
before the first element the comparator does not order strictly after
it.  A comparator exception propagates. -/
def insertByZIndex (x : ZChild) : List ZChild → Except String (List ZChild)
  | [] => .ok [x]
  | y :: ys =>
    match compareZ x y with
    | .error msg => .error msg
    | .ok v =>
      if v ≤ 0 then .ok (x :: y :: ys)
      else
        match insertByZIndex x ys with
        | .error msg => .error msg
        | .ok r => .ok (y :: r)

/-- `[...parent.children].sort(comparator)`: ECMAScript requires
`Array.prototype.sort` to be stable, so it is modelled as a stable
insertion sort threading the throwing comparator.  For a list of length
at least two every element takes part in at least one comparison, as in
any comparison sort, so a missing sort key is detected exactly when the
list has at least two elements. -/
def stableSortByZIndex : List ZChild → Except String (List ZChild)
  | [] => .ok []
  | x :: xs =>
    match stableSortByZIndex xs with
    | .error msg => .error msg
    | .ok r => insertByZIndex x r

/-- A layer container: its `data-stacking-layer` attribute and its
children. -/
structure LayerEl where
  stackingLayer : Option String
  children : List ZChild
deriving DecidableEq, Repr

/-- `sortChildrenByZIndex` (`stacking.ts`, lines 160-172): sort the
children by the z-index comparator, then re-append each child in sorted
order (appending an existing child moves it to the end, so the container
ends up holding exactly the sorted sequence). -/
def sortChildrenByZIndex (parent : LayerEl) : Except String LayerEl :=
  match stableSortByZIndex parent.children with
  | .error msg => .error msg
  | .ok sorted => .ok { parent with children := sorted }

/-- The `StackingLayers` record (`stacking.ts`, lines 70-91): the seven
layer containers of one stacking context. -/
structure StackingLayers where
  rootBackgroundAndBorders : LayerEl
  childStackingContextsWithNegativeStackLevels : LayerEl
  inFlowNonInlineNonPositionedDescendants : LayerEl
  nonPositionedFloats : LayerEl
  inFlowInlineLevelNonPositionedDescendants : LayerEl
  childStackingContextsWithStackLevelZeroAndPositionedDescendantsWithStackLevelZero : LayerEl
  childStackingContextsWithPositiveStackLevels : LayerEl
deriving DecidableEq, Repr

/-- The container element passed to `createStackingLayers`: its
`data-stacking-context` attribute and its children (layer elements). -/
structure SvgContainer where
  stackingContext : Option String
  children : List LayerEl
deriving DecidableEq, Repr

/-- `createStackingLayer` (`stacking.ts`, lines 93-98): create an empty
`g` element, tag it with the layer name in `data-stacking-layer`, append
it to the parent, and return it. -/
def createStackingLayer (parent : SvgContainer) (layerName : String) :
    SvgContainer × LayerEl :=
  let layer : LayerEl := { stackingLayer := some layerName, children := [] }
  ({ parent with children := parent.children ++ [layer] }, layer)

/-- `createStackingLayers` (`stacking.ts`, lines 100-126): mark the
container as a stacking context and create the seven layers in
declaration order. -/
def createStackingLayers (container : SvgContainer) : SvgContainer × StackingLayers :=
  let c0 := { container with stackingContext := some "true" }
  let r1 := createStackingLayer c0 "rootBackgroundAndBorders"
  let r2 := createStackingLayer r1.1 "childStackingContextsWithNegativeStackLevels"
  let r3 := createStackingLayer r2.1 "inFlowNonInlineNonPositionedDescendants"
  let r4 := createStackingLayer r3.1 "nonPositionedFloats"
  let r5 := createStackingLayer r4.1 "inFlowInlineLevelNonPositionedDescendants"
  let r6 := createStackingLayer r5.1
    "childStackingContextsWithStackLevelZeroAndPositionedDescendantsWithStackLevelZero"
  let r7 := createStackingLayer r6.1 "childStackingContextsWithPositiveStackLevels"
  (r7.1,
    { rootBackgroundAndBorders := r1.2
      childStackingContextsWithNegativeStackLevels := r2.2
      inFlowNonInlineNonPositionedDescendants := r3.2
      nonPositionedFloats := r4.2
      inFlowInlineLevelNonPositionedDescendants := r5.2
      childStackingContextsWithStackLevelZeroAndPositionedDescendantsWithStackLevelZero := r6.2
      childStackingContextsWithPositiveStackLevels := r7.2 })

/-- `sortStackingLayerChildren` (`stacking.ts`, lines 174-177): sort the
negative layer, then the positive layer; an exception from the first
sort propagates before the second runs. -/
def sortStackingLayerChildren (stackingLayers : StackingLayers) :
    Except String StackingLayers :=
  match sortChildrenByZIndex stackingLayers.childStackingContextsWithNegativeStackLevels with
  | .error msg => .error msg
  | .ok neg =>
    match sortChildrenByZIndex stackingLayers.childStackingContextsWithPositiveStackLevels with
    | .error msg => .error msg
    | .ok pos =>
      .ok { stackingLayers with
            childStackingContextsWithNegativeStackLevels := neg
            childStackingContextsWithPositiveStackLevels := pos }

/-- Default computed style: the initial value of every property read by
the stacking code, for an ordinary block element. -/
def defaultStyle : ComputedStyle :=
  { position := "static", zIndex := "auto", display := "block", opacity := "1"
    mixBlendMode := "normal", transform := "none", filter := "none"
    perspective := "none", clipPath := "none", mask := "none", maskImage := "none"
    maskBorder := "none", isolation := "auto", webkitOverflowScrolling := "auto"
    contain := "none", willChange := "auto", float := "none", displayOutside := "block" }

/-- A `position: relative; z-index: auto` element with every other
property at its default, in a document with a default view. -/
def relativeAutoElement : Node :=
  { hasDefaultView := true, isElement := true, isRoot := false
    style := { defaultStyle with position := "relative" }, parentStyle := none }

/-- A `position: relative; z-index: auto` element whose outer display
type is inline, every other property at its default. -/
def relativeAutoInlineElement : Node :=
  { hasDefaultView := true, isElement := true, isRoot := false
    style := { defaultStyle with position := "relative", displayOutside := "inline" }
    parentStyle := none }

/-- A fully default block element in a document with a default view. -/
def blockElement : Node :=
  { hasDefaultView := true, isElement := true, isRoot := false
    style := defaultStyle, parentStyle := none }

/-- A `will-change: opacity` element with every other property at its
default. -/
def willChangeOpacityElement : Node :=
  { hasDefaultView := true, isElement := true, isRoot := false
    style := { defaultStyle with willChange := "opacity" }, parentStyle := none }

/-- A `will-change: mix-blend-mode` element with every other property at
its default.  Its computed `will-change` value carries the CSS-spelled
ident `mix-blend-mode`, not the camelCase identifier `mixBlendMode`
stored in the source's property set. -/
def willChangeMixBlendModeElement : Node :=
  { hasDefaultView := true, isElement := true, isRoot := false
    style := { defaultStyle with willChange := "mix-blend-mode" }, parentStyle := none }

/-- A non-element node (e.g. a text node) in a document with a default
view. -/
def textNode : Node :=
  { hasDefaultView := true, isElement := false, isRoot := false
    style := defaultStyle, parentStyle := none }

/-- A layer container holding a child whose `data-z-index` is the
non-empty, non-numeric string `"x"`, next to a child tagged `"1"`. -/
def nonIntegerTaggedLayer : LayerEl :=
  { stackingLayer := some "childStackingContextsWithNegativeStackLevels"
    children := [⟨some "x", 0⟩, ⟨some "1", 1⟩] }

/-- A layer container with two children, the first of which lacks the
`data-z-index` attribute entirely. -/
def missingTaggedLayer : LayerEl :=
  { stackingLayer := some "childStackingContextsWithPositiveStackLevels"
    children := [⟨none, 0⟩, ⟨some "1", 1⟩] }

/-- A layer container whose first two children carry the same z-index
tag `"1"` but differ in content, followed by a child tagged `"0"`. -/
def equalKeysLayer : LayerEl :=
  { stackingLayer := some "childStackingContextsWithPositiveStackLevels"
    children := [⟨some "1", 10⟩, ⟨some "1", 20⟩, ⟨some "0", 30⟩] }

/-- A layer container whose children all carry non-empty `data-z-index`
attributes, two of which do not parse as integers. -/
def nonEmptyTagsLayer : LayerEl :=
  { stackingLayer := some "childStackingContextsWithNegativeStackLevels"
    children := [⟨some "b", 0⟩, ⟨some "2", 1⟩, ⟨some "a", 2⟩] }

/-- A `StackingLayers` record whose negative layer holds three children
tagged `-3`, `-1`, `-2`, in that document order (spec Scenario C). -/
def scenarioCLayers : StackingLayers :=
  { rootBackgroundAndBorders := ⟨some "rootBackgroundAndBorders", []⟩
    childStackingContextsWithNegativeStackLevels :=
      ⟨some "childStackingContextsWithNegativeStackLevels",
        [⟨some "-3", 0⟩, ⟨some "-1", 1⟩, ⟨some "-2", 2⟩]⟩
    inFlowNonInlineNonPositionedDescendants :=
      ⟨some "inFlowNonInlineNonPositionedDescendants", []⟩
    nonPositionedFloats := ⟨some "nonPositionedFloats", []⟩
    inFlowInlineLevelNonPositionedDescendants :=
      ⟨some "inFlowInlineLevelNonPositionedDescendants", []⟩
    childStackingContextsWithStackLevelZeroAndPositionedDescendantsWithStackLevelZero :=
      ⟨some "childStackingContextsWithStackLevelZeroAndPositionedDescendantsWithStackLevelZero", []⟩
    childStackingContextsWithPositiveStackLevels :=
      ⟨some "childStackingContextsWithPositiveStackLevels", []⟩ }

/-- A child whose sort key parses has a present, non-empty attribute. -/
theorem not_missing_of_key_isSome (c : ZChild) (h : (zKey c).isSome = true) :
    hasMissingZIndex c = false := by
  unfold zKey at h
  unfold hasMissingZIndex
  cases hz : c.zIndex with
  | none => rw [hz] at h; simp at h
  | some s =>
    rw [hz] at h
    simp only [Option.some_bind] at h
    by_cases hs : s = ""
    · subst hs
      exact absurd h (by decide)
    · simp [hs]

/-- The default opacity string `"1"` compares equal to 1. -/
theorem opacityIsNotOne_default : opacityIsNotOne "1" = false := by decide

/-- The default `will-change` value `"auto"` matches no property of the
stacking-context-establishing set. -/
theorem willChangeTriggers_default : willChangeTriggers "auto" = false := by decide

/-- Inserting an element whose comparisons all succeed produces a
result. -/
theorem insertByZIndex_ok (x : ZChild) :
    ∀ (l : List ZChild), hasMissingZIndex x = false →
      (∀ y ∈ l, hasMissingZIndex y = false) →
      ∃ r, insertByZIndex x l = .ok r := by
  intro l
  induction l with
  | nil => intro _ _; exact ⟨[x], rfl⟩
  | cons y ys ih =>
    intro hx hl
    have hy : hasMissingZIndex y = false := hl y (List.mem_cons_self y ys)
    have hys : ∀ z ∈ ys, hasMissingZIndex z = false :=
      fun z hz => hl z (List.mem_cons_of_mem y hz)
    obtain ⟨r', hr'⟩ := ih hx hys
    by_cases hv : zCompareVal x y ≤ 0
    · exact ⟨x :: y :: ys, by simp [insertByZIndex, compareZ, hx, hy, hv]⟩
    · exact ⟨y :: r', by simp [insertByZIndex, compareZ, hx, hy, hv, hr']⟩

/-- A successful insertion yields a permutation of the element consed
onto the list. -/
theorem insertByZIndex_perm (x : ZChild) :
    ∀ (l r : List ZChild), insertByZIndex x l = .ok r → r.Perm (x :: l) := by
  intro l
  induction l with
  | nil =>
    intro r h
    simp [insertByZIndex] at h
    subst h
    exact List.Perm.refl _
  | cons y ys ih =>
    intro r h
    unfold insertByZIndex at h
    cases hc : compareZ x y with
    | error msg => rw [hc] at h; cases h
    | ok v =>
      rw [hc] at h
      dsimp only at h
      by_cases hv : v ≤ 0
      · rw [if_pos hv] at h
        injection h with h
        subst h
        exact List.Perm.refl _
      · rw [if_neg hv] at h
        cases hr : insertByZIndex x ys with
        | error msg => rw [hr] at h; cases h
        | ok r' =>
          rw [hr] at h
          injection h with h
          subst h
          exact ((ih r' hr).cons y).trans (List.Perm.swap x y ys)

/-- A successful comparator call returns exactly the comparator value. -/
theorem compareZ_ok_val (x y : ZChild) (v : Int) (hc : compareZ x y = .ok v) :
    v = zCompareVal x y := by
  unfold compareZ at hc
  by_cases hb : (hasMissingZIndex x || hasMissingZIndex y) = true
  · rw [if_pos hb] at hc; cases hc
  · rw [if_neg hb] at hc; injection hc with hc; exact hc.symm

/-- Stability of insertion, expressed through filtering by a sort key:
the inserted element lands in front of the equal-key block (it
originally preceded every element of the list), and the relative order
of the other equal-key elements is untouched. -/
theorem insertByZIndex_filter (x : ZChild) (k : Int) :
    ∀ (l r : List ZChild), insertByZIndex x l = .ok r →
      r.filter (fun c => zKey c == some k) =
        if zKey x == some k then x :: l.filter (fun c => zKey c == some k)
        else l.filter (fun c => zKey c == some k) := by
  intro l
  induction l with
  | nil =>
    intro r h
    simp [insertByZIndex] at h
    subst h
    by_cases hpx : (zKey x == some k) = true <;> simp [List.filter, hpx]
  | cons y ys ih =>
    intro r h
    unfold insertByZIndex at h
    cases hc : compareZ x y with
    | error msg => rw [hc] at h; cases h
    | ok v =>
      rw [hc] at h
      dsimp only at h
      by_cases hv : v ≤ 0
      · rw [if_pos hv] at h
        injection h with h
        subst h
        by_cases hpx : (zKey x == some k) = true <;> simp [List.filter_cons, hpx]
      · rw [if_neg hv] at h
        cases hr : insertByZIndex x ys with
        | error msg => rw [hr] at h; cases h
        | ok r' =>
          rw [hr] at h
          injection h with h
          subst h
          have hval := compareZ_ok_val x y v hc
          have hih := ih r' hr
          by_cases hpx : (zKey x == some k) = true
          · by_cases hpy : (zKey y == some k) = true
            · exfalso
              have hkx : zKey x = some k := by simpa using hpx
              have hky : zKey y = some k := by simpa using hpy
              have hzero : zCompareVal x y = 0 := by
                unfold zCompareVal
                rw [hkx, hky]
                simp
              rw [hval, hzero] at hv
              exact hv le_rfl
            · simp [List.filter_cons, hpx, hpy, hih]
          · by_cases hpy : (zKey y == some k) = true
            · simp [List.filter_cons, hpx, hpy, hih]
            · simp [List.filter_cons, hpx, hpy, hih]

/-- On a list of children that all carry present, non-empty attributes,
the sort succeeds and returns a permutation of its input. -/
theorem stableSortByZIndex_ok :
    ∀ (l : List ZChild), (∀ c ∈ l, hasMissingZIndex c = false) →
      ∃ r, stableSortByZIndex l = .ok r ∧ r.Perm l := by
  intro l
  induction l with
  | nil => intro _; exact ⟨[], rfl, List.Perm.refl _⟩
  | cons x xs ih =>
    intro hl
    have hx : hasMissingZIndex x = false := hl x (List.mem_cons_self x xs)
    have hxs : ∀ c ∈ xs, hasMissingZIndex c = false :=
      fun c hc => hl c (List.mem_cons_of_mem x hc)
    obtain ⟨r', hr', hperm'⟩ := ih hxs
    have hr'good : ∀ c ∈ r', hasMissingZIndex c = false :=
      fun c hc => hxs c (hperm'.mem_iff.mp hc)
    obtain ⟨r, hr⟩ := insertByZIndex_ok x r' hx hr'good
    refine ⟨r, ?_, ?_⟩
    · unfold stableSortByZIndex
      rw [hr']
      exact hr
    · exact (insertByZIndex_perm x r' r hr).trans (hperm'.cons x)

/-- Stability of the sort: filtering the successful output by any sort
key yields the same sequence as filtering the input. -/
theorem stableSortByZIndex_filter (k : Int) :
    ∀ (l r : List ZChild), stableSortByZIndex l = .ok r →
      r.filter (fun c => zKey c == some k) = l.filter (fun c => zKey c == some k) := by
  intro l
  induction l with
  | nil =>
    intro r h
    simp [stableSortByZIndex] at h
    subst h
    rfl
  | cons x xs ih =>
    intro r h
    unfold stableSortByZIndex at h
    cases hs : stableSortByZIndex xs with
    | error msg => rw [hs] at h; cases h
    | ok r' =>
      rw [hs] at h
      dsimp only at h
      have hins := insertByZIndex_filter x k r' r h
      have hih := ih r' hs
      rw [hins, hih]
      by_cases hpx : (zKey x == some k) = true <;> simp [List.filter_cons, hpx]

/-- Inserting against a non-empty list throws as soon as either side of
the first comparison lacks its attribute. -/
theorem insertByZIndex_error_of_missing (x y : ZChild) (ys : List ZChild)
    (hxy : hasMissingZIndex x = true ∨ hasMissingZIndex y = true) :
    insertByZIndex x (y :: ys) = .error "Expected node to have data-z-index attribute" := by
  have hb : (hasMissingZIndex x || hasMissingZIndex y) = true := by
    rcases hxy with h | h <;> simp [h]
  simp [insertByZIndex, compareZ, hb]

/-- On a list with at least two children of which one lacks its
attribute, the sort throws: the offending child takes part in at least
one comparison. -/
theorem stableSortByZIndex_error :
    ∀ (l : List ZChild), 2 ≤ l.length → (∃ c ∈ l, hasMissingZIndex c = true) →
      stableSortByZIndex l = .error "Expected node to have data-z-index attribute" := by
  intro l
  induction l with
  | nil => intro h _; simp at h
  | cons x xs ih =>
    intro hlen hbad
    by_cases hxsbad : ∃ c ∈ xs, hasMissingZIndex c = true
    · by_cases hxslen : 2 ≤ xs.length
      · have hrec := ih hxslen hxsbad
        unfold stableSortByZIndex
        rw [hrec]
      · obtain ⟨y, hymem, hybad⟩ := hxsbad
        have h1 : xs.length = 1 := by
          have h0 : 1 ≤ xs.length := List.length_pos.mpr (List.ne_nil_of_mem hymem)
          omega
        obtain ⟨a, ha⟩ := List.length_eq_one.mp h1
        subst ha
        have hya : y = a := by simpa using hymem
        subst hya
        show stableSortByZIndex (x :: [y]) = _
        unfold stableSortByZIndex
        unfold stableSortByZIndex
        unfold stableSortByZIndex
        dsimp only [insertByZIndex]
        exact insertByZIndex_error_of_missing x y [] (Or.inr hybad)
    · obtain ⟨c, hcmem, hcbad⟩ := hbad
      have hx : hasMissingZIndex x = true := by
        rcases List.mem_cons.mp hcmem with h | h
        · rw [← h]; exact hcbad
        · exact absurd ⟨c, h, hcbad⟩ hxsbad
      have hxsgood : ∀ c ∈ xs, hasMissingZIndex c = false := by
        intro d hd
        by_contra hne
        exact hxsbad ⟨d, hd, by simpa using hne⟩
      obtain ⟨r, hr, hperm⟩ := stableSortByZIndex_ok xs hxsgood
      have hxslen : 1 ≤ xs.length := by
        simp only [List.length_cons] at hlen
        omega
      have hrne : r ≠ [] := by
        intro h0
        rw [h0] at hperm
        have hlen0 := hperm.length_eq
        simp at hlen0
        omega
      obtain ⟨y, ys, hys⟩ := List.exists_cons_of_ne_nil hrne
      unfold stableSortByZIndex
      rw [hr]
      dsimp only
      rw [hys]
      exact insertByZIndex_error_of_missing x y ys (Or.inl hx)

/-- Claim C1: the spec states that a positioned element with z-index
`"auto"` not matched by classifier rules 1-4 is treated as stack level 0
and placed in the zero-stack-level layer.  The code disagrees: for such
an element the local `zIndex` is `undefined`, rule 5 compares it with
the literal `0` and fails, and `determineStackingLayer` throws.  This
theorem evaluates the embedded code at the failing input, a
`position: relative; z-index: auto` element with default styling. -/
theorem determineStackingLayer_positionedAuto_fails :
    determineStackingLayer relativeAutoElement =
      .error "Did not find appropiate stacking layer" := by decide

/-- Claim C2, counterexample: for the spec's Scenario A element
(`position: relative; z-index: auto`, defaults otherwise),
`establishesStackingContext` is indeed `false`, but the element is not
classified into an in-flow non-positioned layer — `determineStackingLayer`
throws, refuting the claim at this concrete input. -/
theorem scenarioA_counterexample :
    establishesStackingContext relativeAutoElement = .ok false ∧
    determineStackingLayer relativeAutoElement =
      .error "Did not find appropiate stacking layer" := by decide

/-- Claim C2, amended: for every element with `position: relative`,
`z-index: auto` and defaults for the other stacking-relevant properties,
`establishesStackingContext` returns `false`, but `determineStackingLayer`
does not classify the element into layer 3 or 5: being positioned it is
excluded from rules 2-4, its `"auto"` z-index is not treated as 0 by
rules 1, 5 and 6, and the classifier throws. -/
theorem relativeAuto_unclassifiable (n : Node)
    (hview : n.hasDefaultView = true) (helem : n.isElement = true)
    (hpos : n.style.position = "relative") (hz : n.style.zIndex = "auto")
    (hop : n.style.opacity = "1") (hmbm : n.style.mixBlendMode = "normal")
    (htr : n.style.transform = "none") (hfl : n.style.filter = "none")
    (hpe : n.style.perspective = "none") (hcp : n.style.clipPath = "none")
    (hmk : n.style.mask = "none") (hmi : n.style.maskImage = "none")
    (hmb : n.style.maskBorder = "none") (hiso : n.style.isolation = "auto")
    (hwos : n.style.webkitOverflowScrolling = "auto") (hcon : n.style.contain = "none")
    (hwc : n.style.willChange = "auto") :
    establishesStackingContext n = .ok false ∧
    determineStackingLayer n = .error "Did not find appropiate stacking layer" := by
  have hstyle : establishesStackingContextStyle n.style n.parentStyle = false := by
    unfold establishesStackingContextStyle
    rw [hpos, hz, hop, hmbm, htr, hfl, hpe, hcp, hmk, hmi, hmb, hiso, hwos, hcon, hwc]
    simp [opacityIsNotOne_default, willChangeTriggers_default]
  have hzn : (if n.style.zIndex != "auto" then jsParseInt n.style.zIndex else none) =
      (none : Option Int) := by
    rw [hz]; simp
  have hposd : isPositioned n.style = true := by
    unfold isPositioned
    rw [hpos]
    simp
  have hbeq : ((none : Option Int) == some 0) = false := by decide
  constructor
  · simp [establishesStackingContext, hview, helem, hstyle]
  · simp [determineStackingLayer, hview, hzn, hposd, hbeq, hstyle,
      establishesStackingContextB, hz]

/-- Claim C2, witness for the amended statement: an inline-level
`position: relative; z-index: auto` element. -/
theorem relativeAuto_unclassifiable_witness :
    establishesStackingContext relativeAutoInlineElement = .ok false ∧
    determineStackingLayer relativeAutoInlineElement =
      .error "Did not find appropiate stacking layer" :=
  relativeAuto_unclassifiable relativeAutoInlineElement rfl rfl rfl rfl rfl rfl rfl rfl
    rfl rfl rfl rfl rfl rfl rfl rfl rfl

/-- Claim C3, counterexample: the claim quantifies over elements whose
`will-change` list names any property of the set it spells as
`clip-path, contain, ..., mask-border, mask-image, mix-blend-mode, ...,
z-index`.  An element whose `will-change` property list is exactly
`mix-blend-mode` names a member of that set, yet the source's set stores
the camelCase identifier `mixBlendMode`, the membership test fails, and
`establishesStackingContext` returns `false` — not `true` as claimed. -/
theorem willChange_cssSpelling_counterexample :
    (splitCommaChars willChangeMixBlendModeElement.style.willChange.data []).map
        (fun property => String.mk (trimChars property)) = ["mix-blend-mode"] ∧
    establishesStackingContext willChangeMixBlendModeElement = .ok false := by decide

/-- Claim C3, amended: `establishesStackingContext` returns `true`
whenever the element's `will-change` list (split on commas and trimmed,
as the source does) contains one of the identifiers of the source's
property set — the camelCase spellings `clipPath`, `contain`, `filter`,
`isolation`, `mask`, `maskBorder`, `maskImage`, `mixBlendMode`,
`opacity`, `perspective`, `position`, `transform`,
`webkitOverflowScrolling`, `zIndex` — whatever the other style values
are.  The CSS-spelled hyphenated names the claim enumerates
(`clip-path`, `mask-border`, `mask-image`, `mix-blend-mode`, `z-index`
and the `-webkit-overflow-scrolling` form) are not members of that set
and do not trigger the rule; the single-word names coincide in both
spellings, so in particular `will-change: opacity` with opacity 1 yields
`true`. -/
theorem willChange_establishes_stackingContext (n : Node)
    (hview : n.hasDefaultView = true) (helem : n.isElement = true)
    (htrig : (splitCommaChars n.style.willChange.data []).any
        (fun property =>
          stackingContextEstablishingProperties.contains (String.mk (trimChars property))) =
        true) :
    establishesStackingContext n = .ok true := by
  have hne : n.style.willChange ≠ "" := by
    intro h0
    rw [h0] at htrig
    exact absurd htrig (by decide)
  have htrg : willChangeTriggers n.style.willChange = true := by
    unfold willChangeTriggers
    rw [Bool.and_eq_true]
    exact ⟨bne_iff_ne.mpr hne, htrig⟩
  have hstyle : establishesStackingContextStyle n.style n.parentStyle = true := by
    unfold establishesStackingContextStyle
    simp [htrg]
  simp [establishesStackingContext, hview, helem, hstyle]

/-- Claim C3, witness for the amended statement: an element with
`will-change: opacity`, opacity 1 and every other property at its
default establishes a stacking context. -/
theorem willChange_establishes_stackingContext_witness :
    establishesStackingContext willChangeOpacityElement = .ok true :=
  willChange_establishes_stackingContext willChangeOpacityElement rfl rfl (by decide)

/-- Claim C4, counterexample: a layer container with a child whose
`data-z-index` is the non-empty, non-integer string `"x"` is sorted
without any error — the comparator only guards against missing or empty
attributes, and the `NaN` comparison is treated as "equal".  The claim
that such a container makes the finalize step fail is therefore false. -/
theorem sortChildrenByZIndex_nonInteger_counterexample :
    sortChildrenByZIndex nonIntegerTaggedLayer = .ok nonIntegerTaggedLayer := by decide

/-- Claim C4, amended: the finalize step fails exactly on the guard the
comparator actually has — whenever the container holds at least two
children and some child's `data-z-index` attribute is missing or empty,
`sortChildrenByZIndex` throws; non-empty non-integer tags are compared
as equal and do not raise an error, and a single untagged child is never
compared. -/
theorem sortChildrenByZIndex_missing_tag_fails (parent : LayerEl)
    (hlen : 2 ≤ parent.children.length)
    (hbad : ∃ c ∈ parent.children, hasMissingZIndex c = true) :
    sortChildrenByZIndex parent = .error "Expected node to have data-z-index attribute" := by
  unfold sortChildrenByZIndex
  rw [stableSortByZIndex_error parent.children hlen hbad]

/-- Claim C4, witness for the amended statement: two children, one
without the attribute. -/
theorem sortChildrenByZIndex_missing_tag_fails_witness :
    2 ≤ missingTaggedLayer.children.length ∧
    (∃ c ∈ missingTaggedLayer.children, hasMissingZIndex c = true) ∧
    sortChildrenByZIndex missingTaggedLayer =
      .error "Expected node to have data-z-index attribute" :=
  ⟨by decide, by decide,
    sortChildrenByZIndex_missing_tag_fails missingTaggedLayer (by decide) (by decide)⟩

/-- Claim C5: on a container whose children all carry parseable integer
z-index tags, `sortChildrenByZIndex` succeeds and is stable — for every
numeric key, the subsequence of children carrying that key is unchanged,
i.e. children with equal z-index keep their pre-sort document order. -/
theorem sortChildrenByZIndex_stable (parent : LayerEl)
    (hkeys : ∀ c ∈ parent.children, (zKey c).isSome = true) :
    ∃ result, sortChildrenByZIndex parent = .ok result ∧
      ∀ k : Int, result.children.filter (fun c => zKey c == some k) =
        parent.children.filter (fun c => zKey c == some k) := by
  have hgood : ∀ c ∈ parent.children, hasMissingZIndex c = false :=
    fun c hc => not_missing_of_key_isSome c (hkeys c hc)
  obtain ⟨r, hr, _⟩ := stableSortByZIndex_ok parent.children hgood
  refine ⟨{ parent with children := r }, ?_, ?_⟩
  · unfold sortChildrenByZIndex
    rw [hr]
  · intro k
    exact stableSortByZIndex_filter k parent.children r hr

/-- Claim C5, witness: a container with two equal-key children. -/
theorem sortChildrenByZIndex_stable_witness :
    (∀ c ∈ equalKeysLayer.children, (zKey c).isSome = true) ∧
    ∃ result, sortChildrenByZIndex equalKeysLayer = .ok result ∧
      ∀ k : Int, result.children.filter (fun c => zKey c == some k) =
        equalKeysLayer.children.filter (fun c => zKey c == some k) :=
  ⟨by decide, sortChildrenByZIndex_stable equalKeysLayer (by decide)⟩

/-- Claim C6: for a negative-stack-level layer holding three siblings
tagged `-3`, `-1`, `-2` in document order, the finalize step
(`sortStackingLayerChildren`) reorders them to ascending z-index order
`-3`, `-2`, `-1` and leaves every other layer untouched. -/
theorem scenarioC_negativeLayer_sorted :
    sortStackingLayerChildren scenarioCLayers =
      .ok { scenarioCLayers with
            childStackingContextsWithNegativeStackLevels :=
              ⟨some "childStackingContextsWithNegativeStackLevels",
                [⟨some "-3", 0⟩, ⟨some "-2", 2⟩, ⟨some "-1", 1⟩]⟩ } := by decide

/-- Claim C7: `establishesStackingContext` fails exactly when the node's
owner document has no default view, and on a non-element node whose
owner document does have a default view it returns `false` without
error. -/
theorem establishesStackingContext_error_iff_no_view (node : Node) :
    ((∃ msg, establishesStackingContext node = .error msg) ↔ node.hasDefaultView = false) ∧
    (node.hasDefaultView = true → node.isElement = false →
      establishesStackingContext node = .ok false) := by
  cases hv : node.hasDefaultView with
  | false =>
    refine ⟨⟨fun _ => rfl, fun _ => ?_⟩, fun h _ => ?_⟩
    · exact ⟨"Node's ownerDocument has no defaultView", by simp [establishesStackingContext, hv]⟩
    · simp at h
  | true =>
    refine ⟨⟨fun hmsg => ?_, fun h => ?_⟩, fun _ he => ?_⟩
    · obtain ⟨msg, hmsg⟩ := hmsg
      cases he : node.isElement <;> simp [establishesStackingContext, hv, he] at hmsg
    · simp at h
    · simp [establishesStackingContext, hv, he]

/-- Claim C7, witness: a text node in a document with a default view. -/
theorem establishesStackingContext_error_iff_no_view_witness :
    establishesStackingContext textNode = .ok false :=
  (establishesStackingContext_error_iff_no_view textNode).2 rfl rfl

/-- Claim C8: `createStackingLayers` marks the container as a stacking
context and appends exactly seven empty layer containers to it, in
declaration order 1-7, each tagged with its stable layer-name
identifier; the returned record holds those seven layers. -/
theorem createStackingLayers_seven_layers (container : SvgContainer) :
    (createStackingLayers container).1.stackingContext = some "true" ∧
    (createStackingLayers container).1.children = container.children ++
      [ ⟨some "rootBackgroundAndBorders", []⟩,
        ⟨some "childStackingContextsWithNegativeStackLevels", []⟩,
        ⟨some "inFlowNonInlineNonPositionedDescendants", []⟩,
        ⟨some "nonPositionedFloats", []⟩,
        ⟨some "inFlowInlineLevelNonPositionedDescendants", []⟩,
        ⟨some "childStackingContextsWithStackLevelZeroAndPositionedDescendantsWithStackLevelZero",
          []⟩,
        ⟨some "childStackingContextsWithPositiveStackLevels", []⟩ ] ∧
    (createStackingLayers container).2 =
      { rootBackgroundAndBorders := ⟨some "rootBackgroundAndBorders", []⟩
        childStackingContextsWithNegativeStackLevels :=
          ⟨some "childStackingContextsWithNegativeStackLevels", []⟩
        inFlowNonInlineNonPositionedDescendants :=
          ⟨some "inFlowNonInlineNonPositionedDescendants", []⟩
        nonPositionedFloats := ⟨some "nonPositionedFloats", []⟩
        inFlowInlineLevelNonPositionedDescendants :=
          ⟨some "inFlowInlineLevelNonPositionedDescendants", []⟩
        childStackingContextsWithStackLevelZeroAndPositionedDescendantsWithStackLevelZero :=
          ⟨some "childStackingContextsWithStackLevelZeroAndPositionedDescendantsWithStackLevelZero",
            []⟩
        childStackingContextsWithPositiveStackLevels :=
          ⟨some "childStackingContextsWithPositiveStackLevels", []⟩ } := by
  refine ⟨rfl, ?_, rfl⟩
  simp [createStackingLayers, createStackingLayer]

/-- Claim C8, witness: the empty container receives the seven layers. -/
theorem createStackingLayers_seven_layers_witness :
    (createStackingLayers ⟨none, []⟩).1.children =
      [ ⟨some "rootBackgroundAndBorders", []⟩,
        ⟨some "childStackingContextsWithNegativeStackLevels", []⟩,
        ⟨some "inFlowNonInlineNonPositionedDescendants", []⟩,
        ⟨some "nonPositionedFloats", []⟩,
        ⟨some "inFlowInlineLevelNonPositionedDescendants", []⟩,
        ⟨some "childStackingContextsWithStackLevelZeroAndPositionedDescendantsWithStackLevelZero",
          []⟩,
        ⟨some "childStackingContextsWithPositiveStackLevels", []⟩ ] :=
  (createStackingLayers_seven_layers ⟨none, []⟩).2.1

/-- Claim C9: whenever `determineStackingLayer` returns without error,
the returned layer is never `rootBackgroundAndBorders` — layer 1 is
reserved for the context-establishing element itself and no classifier
rule produces it. -/
theorem determineStackingLayer_never_root (element : Node) (layer : StackingLayerName)
    (h : determineStackingLayer element = .ok layer) :
    layer ≠ StackingLayerName.rootBackgroundAndBorders := by
  intro hEq
  subst hEq
  simp only [determineStackingLayer] at h
  split_ifs at h <;> simp_all

/-- Claim C9, witness: a default block element is classified into layer
3, which is distinct from layer 1. -/
theorem determineStackingLayer_never_root_witness :
    StackingLayerName.inFlowNonInlineNonPositionedDescendants ≠
      StackingLayerName.rootBackgroundAndBorders :=
  determineStackingLayer_never_root blockElement
    StackingLayerName.inFlowNonInlineNonPositionedDescendants (by decide)

/-- Claim C10: on a container whose children all carry non-empty
`data-z-index` attributes, `sortChildrenByZIndex` terminates without
error and the resulting child sequence is a permutation of the original
children — nothing is added, removed or duplicated. -/
theorem sortChildrenByZIndex_permutes (parent : LayerEl)
    (hkeys : ∀ c ∈ parent.children, hasMissingZIndex c = false) :
    ∃ result, sortChildrenByZIndex parent = .ok result ∧
      result.children.Perm parent.children := by
  obtain ⟨r, hr, hperm⟩ := stableSortByZIndex_ok parent.children hkeys
  refine ⟨{ parent with children := r }, ?_, hperm⟩
  unfold sortChildrenByZIndex
  rw [hr]

/-- Claim C10, witness: a container with non-empty tags, two of which do
not parse as integers, still sorts into a permutation. -/
theorem sortChildrenByZIndex_permutes_witness :
    (∀ c ∈ nonEmptyTagsLayer.children, hasMissingZIndex c = false) ∧
    ∃ result, sortChildrenByZIndex nonEmptyTagsLayer = .ok result ∧
      result.children.Perm nonEmptyTagsLayer.children :=
  ⟨by decide, sortChildrenByZIndex_permutes nonEmptyTagsLayer (by decide)⟩

end DomToSvg
